import Mathlib

/-!
Shallow embedding of the LiteBots repository (src/server.js, src/bot.js).

The repository contains two successive variants of `server.js` concatenated in
one source file: a first variant (no PKCE, two admin password fields) and a
second "PKCE" variant (PKCE code challenge, single admin password field).
Definitions suffixed `1` embed the first variant, definitions suffixed `2`
embed the PKCE variant.

JavaScript strings are modelled as Lean `String`s (units = characters; the
sources only use them at character granularity).  A possibly-absent value
(`undefined` field, missing query parameter) is an `Option`.  JavaScript
truthiness on strings (`!s` is true for `undefined` and `""`) is the
`jsFalsy` predicate below.  Upstream network calls (Discord token exchange,
profile fetch, bot REST calls) are modelled by boolean/value oracles passed
as arguments; handlers record whether the upstream call was attempted.
-/

namespace LiteBots

/-- JavaScript truthiness test for an optional string: `undefined` and the
empty string are falsy. -/
def jsFalsy : Option String → Bool
  | none => true
  | some s => s == ""

/-- JavaScript `a || b` for an optional string `a` with a string default:
falsy (`undefined` or `""`) falls through to the default. -/
def jsOr (o : Option String) (d : String) : String :=
  match o with
  | none => d
  | some s => if s == "" then d else s

/-- JavaScript `String(x || "")` applied to an optional string. -/
def orEmpty (o : Option String) : String := jsOr o ""

/-- Whitespace characters removed by JavaScript `String.prototype.trim`
(restricted to the ASCII whitespace actually reachable here). -/
def isJsWs (c : Char) : Bool :=
  c == ' ' || c == '\t' || c == '\n' || c == '\r' || c == '\x0b' || c == '\x0c'

/-- JavaScript `trim` on a character list: drop whitespace from both ends. -/
def trimChars (l : List Char) : List Char :=
  ((l.dropWhile isJsWs).reverse.dropWhile isJsWs).reverse

/-- JavaScript `s.trim()`. -/
def jsTrim (s : String) : String := String.mk (trimChars s.data)

/-- JavaScript `s.slice(0, n)` (the first `n` units). -/
def jsTake (s : String) (n : Nat) : String := String.mk (s.data.take n)

/-- JavaScript `s.slice(-n)` (the last `min n (length s)` units). -/
def jsTakeLast (s : String) (n : Nat) : String :=
  String.mk (s.data.drop (s.data.length - n))

/-- JavaScript `Number(s)` restricted to the strings that occur here: a
Discord discriminator is a digit string.  `Number("") = 0`; a non-numeric
string is `NaN`, modelled as `none`. -/
def jsNumber (s : String) : Option Nat :=
  if s.data.isEmpty then some 0
  else if s.data.all Char.isDigit then
    some (s.data.foldl (fun n c => 10 * n + (c.toNat - 48)) 0)
  else none

/-- Discord user profile as returned by the `users/@me` endpoint (the fields
the two `server.js` variants read). -/
structure DiscordUser where
  id : Option String
  username : String
  global_name : Option String
  discriminator : Option String
  avatar : Option String
  deriving Repr, DecidableEq

/-- First variant `discordAvatarUrl` (src/server.js lines 70 to 76):
`null` without an id; the fixed `embed/avatars/0.png` default without an
avatar; otherwise a CDN URL with extension `gif` when the avatar reference
starts with `a_`, else `png`. -/
def discordAvatarUrl1 (user : DiscordUser) : Option String :=
  if jsFalsy user.id then none
  else if jsFalsy user.avatar then
    some "https://cdn.discordapp.com/embed/avatars/0.png"
  else
    let a := orEmpty user.avatar
    let ext := if "a_".data.isPrefixOf a.data then "gif" else "png"
    some ("https://cdn.discordapp.com/avatars/" ++ orEmpty user.id ++ "/" ++ a
      ++ "." ++ ext ++ "?size=128")

/-- PKCE variant default-avatar index: `Number(user.discriminator) % 5 || 0`.
`NaN % 5` is `NaN` and `NaN || 0` is `0`; on the digit strings that occur the
`|| 0` also collapses, since `0 || 0 = 0`. -/
def defaultAvatarIdx (discriminator : Option String) : Nat :=
  match discriminator.bind jsNumber with
  | none => 0
  | some n => n % 5

/-- PKCE variant `discordAvatarUrl` (src/server.js PKCE variant lines 511 to
518): the default URL depends on the discriminator; otherwise the same CDN
URL shape as the first variant. -/
def discordAvatarUrl2 (user : DiscordUser) : String :=
  if jsFalsy user.avatar then
    "https://cdn.discordapp.com/embed/avatars/" ++
      toString (defaultAvatarIdx user.discriminator) ++ ".png"
  else
    let a := orEmpty user.avatar
    let ext := if "a_".data.isPrefixOf a.data then "gif" else "png"
    "https://cdn.discordapp.com/avatars/" ++ orEmpty user.id ++ "/" ++ a
      ++ "." ++ ext ++ "?size=128"

/-- Path part of a URL: everything before the first `?`. -/
def urlPath (s : String) : String := String.mk (s.data.takeWhile (· ≠ '?'))

/-! ## OAuth callback, first variant (src/server.js lines 108 to 159) -/

/-- Client identity stored in the session on a successful first-variant
callback (src/server.js lines 147 to 151). -/
structure Identity1 where
  discordId : Option String
  username : String
  avatarUrl : Option String
  deriving Repr, DecidableEq

/-- First-variant session: the pending OAuth state token (`oauthState`), the
client identity, and the admin flag (a bare boolean, set on line 183). -/
structure Session1 where
  oauthState : Option String
  user : Option Identity1
  admin : Option Bool
  deriving Repr, DecidableEq

/-- Result of a first-variant callback request: HTTP status, redirect target,
whether the token exchange was attempted, and the session afterwards. -/
structure CallbackResult1 where
  status : Nat
  redirectTo : Option String
  exchanged : Bool
  session : Session1
  deriving Repr, DecidableEq

/-- Identity derivation of the first variant (lines 147 to 151):
`global_name || username` and the derived avatar URL. -/
def mkIdentity1 (u : DiscordUser) : Identity1 :=
  { discordId := u.id
    username := jsOr u.global_name u.username
    avatarUrl := discordAvatarUrl1 u }

/-- First-variant `GET /auth/discord/callback` (lines 108 to 159).  `code` and
`state` are the query parameters; `exchangeOk`/`profileOk` are oracles for the
two upstream calls and `u` the profile the identity endpoint would return.
Checks: missing `code` gives 400; falsy `state` or `state !== oauthState`
gives 400; a failed exchange or profile fetch gives 500 — note the session is
left untouched there, `delete req.session.oauthState` runs only on the
success path (line 153). -/
def callback1 (code state : Option String) (exchangeOk profileOk : Bool)
    (u : DiscordUser) (sess : Session1) : CallbackResult1 :=
  if jsFalsy code then
    { status := 400, redirectTo := none, exchanged := false, session := sess }
  else if jsFalsy state || state != sess.oauthState then
    { status := 400, redirectTo := none, exchanged := false, session := sess }
  else if !exchangeOk then
    { status := 500, redirectTo := none, exchanged := true, session := sess }
  else if !profileOk then
    { status := 500, redirectTo := none, exchanged := true, session := sess }
  else
    { status := 302, redirectTo := some "/panel.html", exchanged := true
      session := { sess with user := some (mkIdentity1 u), oauthState := none } }

/-! ## OAuth callback, PKCE variant (src/server.js PKCE variant lines 587
to 617) -/

/-- Pending OAuth handshake of the PKCE variant (`req.session.oauth`,
lines 457 to 461). -/
structure OAuthHandshake where
  state : String
  codeVerifier : String
  createdAt : Nat
  deriving Repr, DecidableEq

/-- Client identity stored by the PKCE variant (lines 603 to 610). -/
structure Identity2 where
  id : String
  username : String
  global_name : Option String
  discriminator : Option String
  avatar : Option String
  avatar_url : String
  deriving Repr, DecidableEq

/-- Admin flag of the PKCE variant: `{ ok: true, at: Date.now() }`
(line 644). -/
structure AdminFlag2 where
  ok : Bool
  loggedInAt : Nat
  deriving Repr, DecidableEq

/-- PKCE-variant session. -/
structure Session2 where
  oauth : Option OAuthHandshake
  user : Option Identity2
  admin : Option AdminFlag2
  deriving Repr, DecidableEq

/-- Result of a PKCE-variant callback request. -/
structure CallbackResult2 where
  status : Nat
  redirectTo : Option String
  exchanged : Bool
  session : Session2
  deriving Repr, DecidableEq

/-- Identity derivation of the PKCE variant (lines 603 to 610). -/
def mkIdentity2 (u : DiscordUser) : Identity2 :=
  { id := orEmpty u.id
    username := u.username
    global_name := match u.global_name with
      | none => none
      | some g => if g == "" then none else some g
    discriminator := u.discriminator
    avatar := match u.avatar with
      | none => none
      | some a => if a == "" then none else some a
    avatar_url := discordAvatarUrl2 u }

/-- PKCE-variant `GET /auth/discord/callback` (lines 587 to 617).  Checks:
falsy `code` or `state` gives 400; no pending handshake gives 400; a state
mismatch gives 400; then `req.session.oauth = null` runs BEFORE the token
exchange (line 598), so the handshake is consumed on the failure paths too. -/
def callback2 (code state : Option String) (exchangeOk profileOk : Bool)
    (u : DiscordUser) (sess : Session2) : CallbackResult2 :=
  if jsFalsy code || jsFalsy state then
    { status := 400, redirectTo := none, exchanged := false, session := sess }
  else
    match sess.oauth with
    | none =>
      { status := 400, redirectTo := none, exchanged := false, session := sess }
    | some hs =>
      if state != some hs.state then
        { status := 400, redirectTo := none, exchanged := false, session := sess }
      else
        let sess' : Session2 := { sess with oauth := none }
        if !exchangeOk then
          { status := 500, redirectTo := none, exchanged := true, session := sess' }
        else if !profileOk then
          { status := 500, redirectTo := none, exchanged := true, session := sess' }
        else
          { status := 302, redirectTo := some "/panel.html", exchanged := true
            session := { sess' with user := some (mkIdentity2 u) } }

/-- The supplied `state` parameter matches the first-variant session's pending
handshake state. -/
def matchesPending1 (state : Option String) (sess : Session1) : Prop :=
  ∃ s, sess.oauthState = some s ∧ state = some s

/-- The supplied `state` parameter matches the PKCE-variant session's pending
handshake state. -/
def matchesPending2 (state : Option String) (sess : Session2) : Prop :=
  ∃ hs, sess.oauth = some hs ∧ state = some hs.state

/-! ## Admin login (first variant lines 176 to 185, PKCE variant lines 635
to 648) -/

/-- First-variant `POST /admin/auth/login`: two password fields, each compared
against its configured secret; success stores the bare boolean `true`
(line 183 reads `req.session.admin = true` — no clock is read, so the ambient
time `now` is unused).  Returns the HTTP status and the session afterwards. -/
def adminLogin1 (pass1 pass2 : Option String) (a1 a2 : String) (now : Nat)
    (sess : Session1) : Nat × Session1 :=
  let _ := now
  let ok := match pass1, pass2 with
    | some p1, some p2 => p1 == a1 && p2 == a2
    | _, _ => false
  if ok then (200, { sess with admin := some true })
  else (401, sess)

/-- PKCE-variant `POST /admin/auth/login`: a single password field matched
against either configured secret; a non-string (absent) field is a 400;
success stores `{ ok: true, at: Date.now() }` (line 644). -/
def adminLogin2 (password : Option String) (a1 a2 : String) (now : Nat)
    (sess : Session2) : Nat × Session2 :=
  match password with
  | none => (400, sess)
  | some p =>
    if p == a1 || p == a2 then (200, { sess with admin := some ⟨true, now⟩ })
    else (401, sess)

/-! ## Ticket bridge (listing, reading, sending) -/

/-- Discord guild channel as returned by the `guilds/:id/channels`
endpoint (the fields read by both variants). -/
structure Channel where
  id : String
  name : String
  parent_id : Option String
  type : Nat
  deriving Repr, DecidableEq

/-- Ticket entry returned by the List operation: an `{id, name}` pair. -/
structure TicketRef where
  id : String
  name : String
  deriving Repr, DecidableEq

/-- PKCE-variant `listTicketsInCategory` body (lines 542 to 547): filter to
channels whose `parent_id` equals the category and whose `type` is 0 (text),
mapped to `{id, name}` in order. -/
def listTicketsInCategory (channels : List Channel) (categoryId : String) :
    List TicketRef :=
  (channels.filter fun c => c.parent_id == some categoryId && c.type == 0).map
    fun c => { id := c.id, name := c.name }

/-- Result of a List request: HTTP status and the ticket list of the JSON
body (empty for error responses, whose body is an error object). -/
structure ListResult where
  status : Nat
  tickets : List TicketRef
  deriving Repr, DecidableEq

/-- First-variant `GET /api/admin/tickets` (lines 226 to 253): an unset
category yields a SUCCESSFUL empty list (line 229); a missing guild id yields
400; an upstream failure yields 500; otherwise the same filter/map as the
PKCE variant (the `ch &&` null guard of line 245 is vacuous over typed
channel values). -/
def ticketsRoute1 (categoryId guildId : Option String) (fetchOk : Bool)
    (channels : List Channel) : ListResult :=
  if jsFalsy categoryId then { status := 200, tickets := [] }
  else if jsFalsy guildId then { status := 400, tickets := [] }
  else if !fetchOk then { status := 500, tickets := [] }
  else
    { status := 200
      tickets := (channels.filter fun ch =>
          ch.parent_id == some (orEmpty categoryId) && ch.type == 0).map
        fun ch => { id := ch.id, name := ch.name } }

/-- PKCE-variant `GET /api/admin/tickets` (lines 667 to 684): no bot token
gives 400, a missing `guildId` query gives 400, an unset category gives 400,
an upstream failure gives 500, else the filtered list. -/
def ticketsRoute2 (hasBot : Bool) (guildId categoryId : Option String)
    (fetchOk : Bool) (channels : List Channel) : ListResult :=
  if !hasBot then { status := 400, tickets := [] }
  else if orEmpty guildId == "" then { status := 400, tickets := [] }
  else if orEmpty categoryId == "" then { status := 400, tickets := [] }
  else if !fetchOk then { status := 500, tickets := [] }
  else
    { status := 200
      tickets := listTicketsInCategory channels (orEmpty categoryId) }

/-- Message author as returned by the channel-messages endpoint. -/
structure Author where
  username : String
  global_name : Option String
  bot : Option Bool
  deriving Repr, DecidableEq

/-- Upstream message (newest first in the API response). -/
structure Msg where
  id : String
  author : Option Author
  content : Option String
  timestamp : Option String
  edited_timestamp : Option String
  deriving Repr, DecidableEq

/-- Message view returned to the admin browser. -/
structure MsgView where
  id : String
  author : String
  authorType : String
  content : String
  timestamp : Option String
  deriving Repr, DecidableEq

/-- First-variant per-message mapping (lines 266 to 272):
`author?.global_name || author?.username || "User"`, `author?.bot` truthy
decides "bot"/"user", `content || ""`, timestamp passed through. -/
def msgView1 (m : Msg) : MsgView :=
  { id := m.id
    author := jsOr (m.author.bind Author.global_name)
      (jsOr (m.author.map Author.username) "User")
    authorType := if (m.author.bind Author.bot).getD false then "bot" else "user"
    content := jsOr m.content ""
    timestamp := m.timestamp }

/-- PKCE-variant per-message mapping (lines 694 to 700):
`author?.username || "Unknown"`, same bot test,
`timestamp || edited_timestamp || nowIso`. -/
def msgView2 (nowIso : String) (m : Msg) : MsgView :=
  { id := m.id
    author := jsOr (m.author.map Author.username) "Unknown"
    authorType := if (m.author.bind Author.bot).getD false then "bot" else "user"
    content := jsOr m.content ""
    timestamp := some (jsOr m.timestamp (jsOr m.edited_timestamp nowIso)) }

/-- First-variant `GET /api/admin/tickets/:channelId` body (lines 264
to 272): reverse the newest-first upstream list, then map. -/
def readMessages1 (msgs : List Msg) : List MsgView :=
  msgs.reverse.map msgView1

/-- PKCE-variant read: `getLastMessages` reverses (line 551), the route maps
(lines 694 to 700). -/
def readMessages2 (nowIso : String) (msgs : List Msg) : List MsgView :=
  msgs.reverse.map (msgView2 nowIso)

/-- Result of a Send request: HTTP status and the content posted upstream
(`none` when no upstream post was attempted). -/
structure SendResult where
  status : Nat
  posted : Option String
  deriving Repr, DecidableEq

/-- First-variant `POST /api/admin/tickets/:channelId/send` (lines 282
to 299): `String(content || "").trim()`; empty channel id or empty trimmed
content gives 400 before any upstream call; otherwise the FULL trimmed
content is posted (no truncation in this variant); a missing bot token makes
`discordBotFetch` throw before the network call, caught as 500. -/
def send1 (channelId content : Option String) (hasBot : Bool) : SendResult :=
  let cid := jsTrim (orEmpty channelId)
  let c := jsTrim (orEmpty content)
  if cid == "" then { status := 400, posted := none }
  else if c == "" then { status := 400, posted := none }
  else if !hasBot then { status := 500, posted := none }
  else { status := 200, posted := some c }

/-- PKCE-variant send (lines 709 to 726): no bot token gives 400; absent or
whitespace-only content gives 400; otherwise `content.trim().slice(0, 1900)`
is posted. -/
def send2 (content : Option String) (hasBot : Bool) : SendResult :=
  if !hasBot then { status := 400, posted := none }
  else
    match content with
    | none => { status := 400, posted := none }
    | some c =>
      if c == "" || jsTrim c == "" then { status := 400, posted := none }
      else { status := 200, posted := some (jsTake (jsTrim c) 1900) }

/-! ## Ticket bot (src/bot.js) -/

/-- `ChannelType.GuildText` in the Discord API. -/
def GuildTextType : Nat := 0

/-- Guild channel as held in the bot's channel cache (the fields
`createTicketChannel` reads; permission overwrites are write-only there and
carry no information the claims mention). -/
structure GChannel where
  id : String
  type : Nat
  parentId : Option String
  topic : Option String
  name : String
  deriving Repr, DecidableEq

/-- Guild state: the channel cache in iteration order. -/
structure Guild where
  channels : List GChannel
  deriving Repr, DecidableEq

/-- Interacting Discord user, as read by the bot. -/
structure BUser where
  id : String
  username : String
  deriving Repr, DecidableEq

/-- Characters the sanitizer of src/bot.js line 70 keeps
(`[^a-z0-9\-]` is replaced by `-`). -/
def isSafeChar (c : Char) : Bool :=
  ('a' ≤ c && c ≤ 'z') || ('0' ≤ c && c ≤ '9') || c == '-'

/-- Per-character sanitizer: `replace(/[^a-z0-9\-]/g, "-")`. -/
def sanitizeChar (c : Char) : Char := if isSafeChar c then c else '-'

/-- Ticket channel name (src/bot.js lines 69 to 71):
`("ticket-" + username).toLowerCase().replace(/[^a-z0-9\-]/g, "-").slice(0, 20)
+ "-" + id.slice(-4)`. -/
def safeNameChars (username uid : List Char) : List Char :=
  ((("ticket-".data ++ username).map Char.toLower).map sanitizeChar).take 20
    ++ '-' :: uid.drop (uid.length - 4)

/-- Ticket channel name as a string. -/
def safeName (u : BUser) : String := String.mk (safeNameChars u.username.data u.id.data)

/-- Topic written on a user's ticket channel: `ticket:<user id>`
(src/bot.js lines 64 and 77). -/
def ticketTopic (u : BUser) : String := "ticket:" ++ u.id

/-- Predicate of the existing-ticket lookup (src/bot.js lines 60 to 65):
text type, parent is the tickets category, topic is `ticket:<user id>`. -/
def isTicketOf (catId : String) (u : BUser) (ch : GChannel) : Bool :=
  ch.type == GuildTextType && ch.parentId == some catId
    && ch.topic == some (ticketTopic u)

/-- `createTicketChannel` (src/bot.js lines 50 to 110): throws when the
category channel is not in the cache; returns the first cached channel
matching `isTicketOf` if one exists; otherwise creates a text channel named
`safeName` with topic `ticket:<user id>` under the category (the fresh
channel id `newId` is chosen by Discord) and caches it. -/
def createTicketChannel (catId : String) (g : Guild) (u : BUser)
    (newId : String) : Except String (GChannel × Guild) :=
  if (g.channels.find? fun ch => ch.id == catId).isNone then
    Except.error ("Nie znaleziono kategorii o ID " ++ catId)
  else
    match g.channels.find? (isTicketOf catId u) with
    | some existing => Except.ok (existing, g)
    | none =>
      let ch : GChannel :=
        { id := newId, type := GuildTextType, parentId := some catId
          topic := some (ticketTopic u), name := safeName u }
      Except.ok (ch, { channels := g.channels ++ [ch] })

/-! ## Helper lemmas -/

/-- A non-falsy optional string is `some` of a nonempty string. -/
theorem jsFalsy_eq_false {o : Option String} (h : jsFalsy o = false) :
    ∃ s, o = some s ∧ s ≠ "" := by
  cases o with
  | none => simp [jsFalsy] at h
  | some s =>
    refine ⟨s, rfl, ?_⟩
    simp [jsFalsy] at h
    exact h

/-- When the supplied state does not match the first variant's pending
handshake, the guard of line 112 fires. -/
theorem mismatch1_guard (state : Option String) (sess : Session1)
    (h : ¬ matchesPending1 state sess) :
    (jsFalsy state || state != sess.oauthState) = true := by
  cases state with
  | none => simp [jsFalsy]
  | some s =>
    by_cases he : s = ""
    · simp [jsFalsy, he]
    · have hne : some s ≠ sess.oauthState := fun heq => h ⟨s, heq.symm, rfl⟩
      simp [jsFalsy, he, bne_iff_ne, hne]

/-! ## C1: state mismatch at the OAuth callback -/

/-- C1: in both `server.js` variants, a callback whose `state` query
parameter does not exactly equal the session's pending handshake state
(including when no pending handshake exists) answers HTTP 400 and never
attempts the token exchange, whatever `code` is. -/
theorem c1_state_mismatch_rejected
    (code state : Option String) (exchangeOk profileOk : Bool)
    (u : DiscordUser) (s1 : Session1) (s2 : Session2)
    (h1 : ¬ matchesPending1 state s1) (h2 : ¬ matchesPending2 state s2) :
    ((callback1 code state exchangeOk profileOk u s1).status = 400 ∧
     (callback1 code state exchangeOk profileOk u s1).exchanged = false ∧
     (callback1 code state exchangeOk profileOk u s1).session = s1) ∧
    ((callback2 code state exchangeOk profileOk u s2).status = 400 ∧
     (callback2 code state exchangeOk profileOk u s2).exchanged = false ∧
     (callback2 code state exchangeOk profileOk u s2).session = s2) := by
  constructor
  · unfold callback1
    by_cases hc : jsFalsy code = true
    · simp [hc]
    · simp only [hc, Bool.false_eq_true, if_false]
      rw [if_pos (mismatch1_guard state s1 h1)]
      exact ⟨rfl, rfl, rfl⟩
  · unfold callback2
    by_cases hc : (jsFalsy code || jsFalsy state) = true
    · simp [hc]
    · simp only [hc, Bool.false_eq_true, if_false]
      cases ho : s2.oauth with
      | none => exact ⟨rfl, rfl, rfl⟩
      | some hs =>
        have hne : state ≠ some hs.state := by
          intro heq
          exact h2 ⟨hs, ho, heq⟩
        simp [bne_iff_ne, hne]

/-- C1 witness: a concrete mismatching callback in both variants is a 400
that performs no exchange. -/
theorem c1_state_mismatch_rejected_witness :
    (¬ matchesPending1 (some "bad")
        { oauthState := some "good", user := none, admin := none }) ∧
    (¬ matchesPending2 (some "bad")
        { oauth := some ⟨"good", "v", 0⟩, user := none, admin := none }) ∧
    (((callback1 (some "c") (some "bad") true true
        ⟨some "1", "u", none, none, none⟩
        { oauthState := some "good", user := none, admin := none }).status = 400 ∧
      (callback1 (some "c") (some "bad") true true
        ⟨some "1", "u", none, none, none⟩
        { oauthState := some "good", user := none, admin := none }).exchanged = false ∧
      (callback1 (some "c") (some "bad") true true
        ⟨some "1", "u", none, none, none⟩
        { oauthState := some "good", user := none, admin := none }).session =
          { oauthState := some "good", user := none, admin := none }) ∧
     ((callback2 (some "c") (some "bad") true true
        ⟨some "1", "u", none, none, none⟩
        { oauth := some ⟨"good", "v", 0⟩, user := none, admin := none }).status = 400 ∧
      (callback2 (some "c") (some "bad") true true
        ⟨some "1", "u", none, none, none⟩
        { oauth := some ⟨"good", "v", 0⟩, user := none, admin := none }).exchanged = false ∧
      (callback2 (some "c") (some "bad") true true
        ⟨some "1", "u", none, none, none⟩
        { oauth := some ⟨"good", "v", 0⟩, user := none, admin := none }).session =
          { oauth := some ⟨"good", "v", 0⟩, user := none, admin := none })) := by
  have h1 : ¬ matchesPending1 (some "bad")
      { oauthState := some "good", user := none, admin := none } := by
    rintro ⟨s, hs, hst⟩
    simp only [Session1.mk.injEq] at hs
    simp only [Option.some.injEq] at hs hst
    rw [← hs] at hst
    exact absurd hst (by decide)
  have h2 : ¬ matchesPending2 (some "bad")
      { oauth := some ⟨"good", "v", 0⟩, user := none, admin := none } := by
    rintro ⟨hs, hso, hst⟩
    simp only [Option.some.injEq] at hso
    rw [← hso] at hst
    simp only [Option.some.injEq] at hst
    exact absurd hst (by decide)
  exact ⟨h1, h2,
    c1_state_mismatch_rejected (some "c") (some "bad") true true
      ⟨some "1", "u", none, none, none⟩
      { oauthState := some "good", user := none, admin := none }
      { oauth := some ⟨"good", "v", 0⟩, user := none, admin := none } h1 h2⟩

/-- A first-variant callback on a session without a pending handshake always
answers 400. -/
theorem callback1_no_pending (code state : Option String) (ex pr : Bool)
    (u : DiscordUser) (sess : Session1) (h : sess.oauthState = none) :
    (callback1 code state ex pr u sess).status = 400 := by
  unfold callback1
  by_cases hc : jsFalsy code = true
  · simp [hc]
  · simp only [hc, Bool.false_eq_true, if_false]
    have hg : (jsFalsy state || state != sess.oauthState) = true := by
      cases state with
      | none => simp [jsFalsy]
      | some s => simp [h]
    rw [if_pos hg]

/-- A PKCE-variant callback on a session without a pending handshake always
answers 400. -/
theorem callback2_no_pending (code state : Option String) (ex pr : Bool)
    (u : DiscordUser) (sess : Session2) (h : sess.oauth = none) :
    (callback2 code state ex pr u sess).status = 400 := by
  unfold callback2
  by_cases hc : (jsFalsy code || jsFalsy state) = true
  · simp [hc]
  · simp only [hc, Bool.false_eq_true, if_false, h]

/-! ## C2: single-use consumption of the pending handshake -/

/-- C2 counterexample: in the first variant a callback that passes the state
check but whose token exchange fails (status 500, exchange attempted) leaves
the handshake pending — `oauthState` is still set afterwards — and a replay
of the same `code`/`state` pair then succeeds (302) instead of failing with
BadRequest, so the handshake is NOT cleared on the failure path. -/
theorem c2_consume_once_counterexample :
    (callback1 (some "c") (some "s") false true ⟨some "1", "u", none, none, none⟩
        { oauthState := some "s", user := none, admin := none }).exchanged = true ∧
    (callback1 (some "c") (some "s") false true ⟨some "1", "u", none, none, none⟩
        { oauthState := some "s", user := none, admin := none }).session.oauthState
      = some "s" ∧
    (callback1 (some "c") (some "s") true true ⟨some "1", "u", none, none, none⟩
        ((callback1 (some "c") (some "s") false true ⟨some "1", "u", none, none, none⟩
          { oauthState := some "s", user := none, admin := none }).session)).status
      = 302 := by decide

/-- C2 (amended): the PKCE variant clears the pending handshake before the
token exchange, on the success and failure paths alike, so any replay after a
completed callback finds no pending handshake and fails with 400.  The first
variant clears the handshake only on the success path: after a successful
callback a replay fails with 400, but on either failure path — a failed
token exchange or a failed profile fetch, both answering 500 — the handshake
remains pending. -/
theorem c2_consume_once_amended (c s v : String) (ca : Nat)
    (hc : c ≠ "") (hs : s ≠ "")
    (ex pr ex2 pr2 : Bool) (u u2 : DiscordUser)
    (id1 : Option Identity1) (ad1 : Option Bool)
    (id2 : Option Identity2) (ad2 : Option AdminFlag2) :
    ((callback2 (some c) (some s) ex pr u
        { oauth := some ⟨s, v, ca⟩, user := id2, admin := ad2 }).session.oauth
        = none ∧
     (callback2 (some c) (some s) ex2 pr2 u2
        ((callback2 (some c) (some s) ex pr u
          { oauth := some ⟨s, v, ca⟩, user := id2, admin := ad2 }).session)).status
        = 400) ∧
    ((callback1 (some c) (some s) true true u
        { oauthState := some s, user := id1, admin := ad1 }).session.oauthState
        = none ∧
     (callback1 (some c) (some s) ex2 pr2 u2
        ((callback1 (some c) (some s) true true u
          { oauthState := some s, user := id1, admin := ad1 }).session)).status
        = 400 ∧
     (∀ e p : Bool, e = false ∨ p = false →
       (callback1 (some c) (some s) e p u
         { oauthState := some s, user := id1, admin := ad1 }).status = 500 ∧
       (callback1 (some c) (some s) e p u
         { oauthState := some s, user := id1, admin := ad1 }).session.oauthState
         = some s)) := by
  constructor
  · have hcons : ∀ e p u', (callback2 (some c) (some s) e p u'
        { oauth := some ⟨s, v, ca⟩, user := id2, admin := ad2 }).session.oauth
        = none := by
      intro e p u'
      cases e <;> cases p <;>
        simp [callback2, jsFalsy, hc, hs]
    exact ⟨hcons ex pr u, callback2_no_pending _ _ _ _ _ _ (hcons ex pr u)⟩
  · have hsucc : (callback1 (some c) (some s) true true u
        { oauthState := some s, user := id1, admin := ad1 }).session
        = { oauthState := none, user := some (mkIdentity1 u), admin := ad1 } := by
      simp [callback1, jsFalsy, hs, hc]
    refine ⟨by rw [hsucc], ?_, ?_⟩
    · exact callback1_no_pending _ _ _ _ _ _ (by rw [hsucc])
    · intro e p h
      rcases h with rfl | rfl
      · constructor <;> simp [callback1, jsFalsy, hc, hs]
      · cases e <;> constructor <;> simp [callback1, jsFalsy, hc, hs]

/-- C2 witness: the amended consumption behaviour at a concrete handshake,
exercising both first-variant failure paths (failed token exchange and
failed profile fetch). -/
theorem c2_consume_once_amended_witness :
    ("c" : String) ≠ "" ∧ ("s" : String) ≠ "" ∧
    ((false : Bool) = false ∨ (true : Bool) = false) ∧
    ((true : Bool) = false ∨ (false : Bool) = false) ∧
    ((callback2 (some "c") (some "s") false true ⟨some "1", "u", none, none, none⟩
        { oauth := some ⟨"s", "v", 0⟩, user := none, admin := none }).session.oauth
        = none ∧
      (callback2 (some "c") (some "s") true true ⟨some "1", "u", none, none, none⟩
        ((callback2 (some "c") (some "s") false true ⟨some "1", "u", none, none, none⟩
          { oauth := some ⟨"s", "v", 0⟩, user := none, admin := none }).session)).status
        = 400) ∧
    ((callback1 (some "c") (some "s") true true ⟨some "1", "u", none, none, none⟩
        { oauthState := some "s", user := none, admin := none }).session.oauthState
        = none ∧
      (callback1 (some "c") (some "s") true true ⟨some "1", "u", none, none, none⟩
        ((callback1 (some "c") (some "s") true true ⟨some "1", "u", none, none, none⟩
          { oauthState := some "s", user := none, admin := none }).session)).status
        = 400) ∧
    ((callback1 (some "c") (some "s") false true ⟨some "1", "u", none, none, none⟩
        { oauthState := some "s", user := none, admin := none }).status = 500 ∧
      (callback1 (some "c") (some "s") false true ⟨some "1", "u", none, none, none⟩
        { oauthState := some "s", user := none, admin := none }).session.oauthState
        = some "s") ∧
    ((callback1 (some "c") (some "s") true false ⟨some "1", "u", none, none, none⟩
        { oauthState := some "s", user := none, admin := none }).status = 500 ∧
      (callback1 (some "c") (some "s") true false ⟨some "1", "u", none, none, none⟩
        { oauthState := some "s", user := none, admin := none }).session.oauthState
        = some "s") := by
  have h := c2_consume_once_amended "c" "s" "v" 0 (by decide) (by decide)
    false true true true ⟨some "1", "u", none, none, none⟩
    ⟨some "1", "u", none, none, none⟩ none none none none
  exact ⟨by decide, by decide, Or.inl rfl, Or.inr rfl,
    h.1, ⟨h.2.1, h.2.2.1⟩,
    h.2.2.2 false true (Or.inl rfl),
    h.2.2.2 true false (Or.inr rfl)⟩

/-! ## C3: avatar URL derivation -/

/-- C3 counterexample: in the PKCE variant two avatarless profiles with
different discriminators get DIFFERENT default avatar URLs, so the default is
not one single fixed string. -/
theorem c3_avatar_default_counterexample :
    discordAvatarUrl2 ⟨some "1", "u", none, some "1", none⟩ ≠
      discordAvatarUrl2 ⟨some "2", "v", none, some "2", none⟩ ∧
    discordAvatarUrl2 ⟨some "1", "u", none, some "1", none⟩ =
      "https://cdn.discordapp.com/embed/avatars/1.png" ∧
    discordAvatarUrl2 ⟨some "2", "v", none, some "2", none⟩ =
      "https://cdn.discordapp.com/embed/avatars/2.png" := by decide

/-- C3 (amended): both variants derive the avatar URL deterministically, with
extension `gif` exactly when the avatar reference starts with `a_` and `png`
otherwise; the no-avatar default is the single fixed
`embed/avatars/0.png` URL in the first variant, while in the PKCE variant it
is `embed/avatars/<Number(discriminator) % 5 || 0>.png`, which varies with
the discriminator. -/
theorem c3_avatar_url_amended :
    (∀ (u : DiscordUser) (uid a : String), u.id = some uid → uid ≠ "" →
       u.avatar = some a → a ≠ "" → "a_".data.isPrefixOf a.data = true →
       discordAvatarUrl1 u = some ("https://cdn.discordapp.com/avatars/"
         ++ uid ++ "/" ++ a ++ ".gif?size=128") ∧
       discordAvatarUrl2 u = "https://cdn.discordapp.com/avatars/"
         ++ uid ++ "/" ++ a ++ ".gif?size=128") ∧
    (∀ (u : DiscordUser) (uid a : String), u.id = some uid → uid ≠ "" →
       u.avatar = some a → a ≠ "" → "a_".data.isPrefixOf a.data = false →
       discordAvatarUrl1 u = some ("https://cdn.discordapp.com/avatars/"
         ++ uid ++ "/" ++ a ++ ".png?size=128") ∧
       discordAvatarUrl2 u = "https://cdn.discordapp.com/avatars/"
         ++ uid ++ "/" ++ a ++ ".png?size=128") ∧
    (∀ u : DiscordUser, jsFalsy u.avatar = true → jsFalsy u.id = false →
       discordAvatarUrl1 u = some "https://cdn.discordapp.com/embed/avatars/0.png") ∧
    (∀ u : DiscordUser, jsFalsy u.avatar = true →
       discordAvatarUrl2 u = "https://cdn.discordapp.com/embed/avatars/"
         ++ toString (defaultAvatarIdx u.discriminator) ++ ".png") := by
  have hgif : ("." : String) ++ ("gif" ++ "?size=128") = ".gif?size=128" := by decide
  have hpng : ("." : String) ++ ("png" ++ "?size=128") = ".png?size=128" := by decide
  refine ⟨?_, ?_, ?_, ?_⟩
  · intro u uid a hid hid' hav ha hsw
    constructor
    · simp [discordAvatarUrl1, jsFalsy, hid, hid', hav, ha, hsw, orEmpty, jsOr,
        String.append_assoc, hgif]
    · simp [discordAvatarUrl2, jsFalsy, hid, hid', hav, ha, hsw, orEmpty, jsOr,
        String.append_assoc, hgif]
  · intro u uid a hid hid' hav ha hsw
    constructor
    · simp [discordAvatarUrl1, jsFalsy, hid, hid', hav, ha, hsw, orEmpty, jsOr,
        String.append_assoc, hpng]
    · simp [discordAvatarUrl2, jsFalsy, hid, hid', hav, ha, hsw, orEmpty, jsOr,
        String.append_assoc, hpng]
  · intro u hav hid
    simp [discordAvatarUrl1, hav, hid]
  · intro u hav
    simp [discordAvatarUrl2, hav]

/-- C3 witness: the amended derivation at concrete profiles. -/
theorem c3_avatar_url_amended_witness :
    (discordAvatarUrl1 ⟨some "9", "u", none, none, some "a_x"⟩ =
       some "https://cdn.discordapp.com/avatars/9/a_x.gif?size=128" ∧
     discordAvatarUrl2 ⟨some "9", "u", none, none, some "a_x"⟩ =
       "https://cdn.discordapp.com/avatars/9/a_x.gif?size=128") ∧
    (discordAvatarUrl1 ⟨some "9", "u", none, none, some "x"⟩ =
       some "https://cdn.discordapp.com/avatars/9/x.png?size=128" ∧
     discordAvatarUrl2 ⟨some "9", "u", none, none, some "x"⟩ =
       "https://cdn.discordapp.com/avatars/9/x.png?size=128") ∧
    discordAvatarUrl1 ⟨some "9", "u", none, none, none⟩ =
      some "https://cdn.discordapp.com/embed/avatars/0.png" ∧
    discordAvatarUrl2 ⟨some "9", "u", none, some "7", none⟩ =
      "https://cdn.discordapp.com/embed/avatars/"
        ++ toString (defaultAvatarIdx (some "7")) ++ ".png" := by
  have h1 := c3_avatar_url_amended.1 ⟨some "9", "u", none, none, some "a_x"⟩
    "9" "a_x" rfl (by decide) rfl (by decide) (by decide)
  have h2 := c3_avatar_url_amended.2.1 ⟨some "9", "u", none, none, some "x"⟩
    "9" "x" rfl (by decide) rfl (by decide) (by decide)
  have h3 := c3_avatar_url_amended.2.2.1 ⟨some "9", "u", none, none, none⟩
    (by decide) (by decide)
  have h4 := c3_avatar_url_amended.2.2.2 ⟨some "9", "u", none, some "7", none⟩
    (by decide)
  refine ⟨?_, ?_, h3, h4⟩
  · refine ⟨h1.1.trans ?_, h1.2.trans ?_⟩ <;> decide
  · refine ⟨h2.1.trans ?_, h2.2.trans ?_⟩ <;> decide

/-! ## C4: ticket message send -/

/-- Dropping by a predicate that no element satisfies keeps the list. -/
theorem dropWhile_eq_self_of_all {p : Char → Bool} {l : List Char}
    (h : ∀ c ∈ l, p c = false) : l.dropWhile p = l := by
  cases l with
  | nil => rfl
  | cons a t =>
    rw [List.dropWhile_cons, h a (List.mem_cons_self a t)]
    simp

/-- Trimming a list containing no whitespace keeps it unchanged. -/
theorem trimChars_eq_self {l : List Char} (h : ∀ c ∈ l, isJsWs c = false) :
    trimChars l = l := by
  unfold trimChars
  rw [dropWhile_eq_self_of_all h,
    dropWhile_eq_self_of_all fun c hc => h c (List.mem_reverse.mp hc),
    List.reverse_reverse]

/-- A 1901-character message body, entirely non-whitespace. -/
def bigContent : String := String.mk (List.replicate 1901 'a')

/-- The big body trims to itself. -/
theorem jsTrim_bigContent : jsTrim bigContent = bigContent := by
  have h : ∀ c ∈ List.replicate 1901 'a', isJsWs c = false := by
    intro c hc
    rw [List.eq_of_mem_replicate hc]
    rfl
  show String.mk (trimChars (List.replicate 1901 'a')) = bigContent
  rw [trimChars_eq_self h]
  rfl

/-- The big body has 1901 characters. -/
theorem bigContent_length : bigContent.length = 1901 := by
  show (List.replicate 1901 'a').length = 1901
  rw [List.length_replicate]

/-- C4 counterexample: the first variant accepts a 1901-character body and
posts it upstream whole — no truncation to 1900 happens there. -/
theorem c4_send_truncation_counterexample :
    (send1 (some "c") (some bigContent) true).status = 200 ∧
    (send1 (some "c") (some bigContent) true).posted = some bigContent ∧
    bigContent.length = 1901 := by
  have hne : bigContent ≠ "" := by
    intro h
    have hl := congrArg String.length h
    rw [bigContent_length] at hl
    simp [String.length] at hl
  have hbeq : (bigContent == "") = false := by
    rw [beq_eq_false_iff_ne]
    exact hne
  have hjc : jsTrim "c" = "c" := by decide
  refine ⟨?_, ?_, bigContent_length⟩ <;>
    simp [send1, orEmpty, jsOr, hbeq, jsTrim_bigContent, hne, hjc]

/-- C4 (amended): both variants reject empty or whitespace-only content with
400 before any upstream call is attempted; on accepted content the PKCE
variant posts the trimmed content truncated to at most 1900 units (exactly
1900 when the trimmed content is longer), while the first variant posts the
full trimmed content with no truncation. -/
theorem c4_send_amended :
    (∀ cid content hasBot, jsTrim (orEmpty content) = "" →
       (send1 cid content hasBot).status = 400 ∧
       (send1 cid content hasBot).posted = none) ∧
    (∀ content hasBot, jsTrim (orEmpty content) = "" →
       (send2 content hasBot).status = 400 ∧
       (send2 content hasBot).posted = none) ∧
    (∀ c : String, jsTrim c ≠ "" → c ≠ "" →
       (send2 (some c) true).status = 200 ∧
       (send2 (some c) true).posted = some (jsTake (jsTrim c) 1900)) ∧
    (∀ s : String, (jsTake s 1900).length ≤ 1900) ∧
    (∀ s : String, 1900 ≤ s.length → (jsTake s 1900).length = 1900) ∧
    (∀ cid content, jsTrim (orEmpty cid) ≠ "" → jsTrim (orEmpty content) ≠ "" →
       (send1 cid content true).status = 200 ∧
       (send1 cid content true).posted = some (jsTrim (orEmpty content))) := by
  refine ⟨?_, ?_, ?_, ?_, ?_, ?_⟩
  · intro cid content hasBot h
    unfold send1
    simp only [h]
    constructor <;> (split <;> simp)
  · intro content hasBot h
    unfold send2
    cases hasBot with
    | false => exact ⟨rfl, rfl⟩
    | true =>
      cases content with
      | none => exact ⟨rfl, rfl⟩
      | some c =>
        by_cases hc : c = ""
        · simp [hc]
        · have : orEmpty (some c) = c := by simp [orEmpty, jsOr, hc]
          rw [this] at h
          simp [h]
  · intro c h hc
    simp [send2, h, hc]
  · intro s
    show (String.mk (s.data.take 1900)).length ≤ 1900
    rw [String.length_mk, List.length_take]
    exact min_le_left _ _
  · intro s h
    show (String.mk (s.data.take 1900)).length = 1900
    rw [String.length_mk, List.length_take]
    have hs : s.data.length = s.length := rfl
    omega
  · intro cid content h1 h2
    unfold send1
    simp only []
    rw [if_neg (by simpa using h1), if_neg (by simpa using h2)]
    exact ⟨rfl, rfl⟩

/-- C4 witness: the amended send behaviour at concrete inputs. -/
theorem c4_send_amended_witness :
    jsTrim (orEmpty (some "  ")) = "" ∧
    jsTrim "abc" ≠ ("" : String) ∧
    (1900 : Nat) ≤ bigContent.length ∧
    jsTrim (orEmpty (some "c")) ≠ "" ∧
    ((send1 (some "c") (some "  ") true).status = 400 ∧
     (send1 (some "c") (some "  ") true).posted = none) ∧
    ((send2 (some "  ") true).status = 400 ∧
     (send2 (some "  ") true).posted = none) ∧
    ((send2 (some "abc") true).status = 200 ∧
     (send2 (some "abc") true).posted = some (jsTake (jsTrim "abc") 1900)) ∧
    (jsTake "abc" 1900).length ≤ 1900 ∧
    (jsTake bigContent 1900).length = 1900 ∧
    ((send1 (some "c") (some "abc") true).status = 200 ∧
     (send1 (some "c") (some "abc") true).posted = some (jsTrim (orEmpty (some "abc")))) := by
  have hbig : (1900 : Nat) ≤ bigContent.length := by
    rw [bigContent_length]
    omega
  exact ⟨by decide, by decide, hbig, by decide,
    c4_send_amended.1 (some "c") (some "  ") true (by decide),
    c4_send_amended.2.1 (some "  ") true (by decide),
    c4_send_amended.2.2.1 "abc" (by decide) (by decide),
    c4_send_amended.2.2.2.1 "abc",
    c4_send_amended.2.2.2.2.1 bigContent hbig,
    c4_send_amended.2.2.2.2.2 (some "c") (some "abc") (by decide) (by decide)⟩

/-! ## C5: admin login -/

/-- C5 counterexample: in the two-password variant a successful login stores
the bare boolean `true` — the resulting session is identical whether the
login happens at time 0 or time 999, so the flag carries no timestamp. -/
theorem c5_admin_flag_counterexample :
    adminLogin1 (some "p1") (some "p2") "p1" "p2" 0
        { oauthState := none, user := none, admin := none }
      = adminLogin1 (some "p1") (some "p2") "p1" "p2" 999
        { oauthState := none, user := none, admin := none } ∧
    (adminLogin1 (some "p1") (some "p2") "p1" "p2" 0
        { oauthState := none, user := none, admin := none }).2.admin
      = some true := by decide

/-- C5 (amended): a successful login sets the admin flag — the bare boolean
`true` (no timestamp) in the two-password variant, `{ok, at}` with the login
timestamp in the single-field PKCE variant.  A failed credential match
returns 401 and leaves the whole session (in particular the admin flag)
unchanged in both variants; an absent password field in the PKCE variant
returns 400, also leaving the session unchanged. -/
theorem c5_admin_login_amended :
    (∀ (a1 a2 : String) (now : Nat) (s1 : Session1),
       adminLogin1 (some a1) (some a2) a1 a2 now s1
         = (200, { s1 with admin := some true })) ∧
    (∀ (p1 p2 : Option String) (a1 a2 : String) (now : Nat) (s1 : Session1),
       ¬(p1 = some a1 ∧ p2 = some a2) →
       adminLogin1 p1 p2 a1 a2 now s1 = (401, s1)) ∧
    (∀ (p a1 a2 : String) (now : Nat) (s2 : Session2), (p = a1 ∨ p = a2) →
       adminLogin2 (some p) a1 a2 now s2
         = (200, { s2 with admin := some ⟨true, now⟩ })) ∧
    (∀ (p a1 a2 : String) (now : Nat) (s2 : Session2), p ≠ a1 → p ≠ a2 →
       adminLogin2 (some p) a1 a2 now s2 = (401, s2)) ∧
    (∀ (a1 a2 : String) (now : Nat) (s2 : Session2),
       adminLogin2 none a1 a2 now s2 = (400, s2)) := by
  refine ⟨?_, ?_, ?_, ?_, ?_⟩
  · intro a1 a2 now s1
    simp [adminLogin1]
  · intro p1 p2 a1 a2 now s1 h
    cases p1 with
    | none => rfl
    | some q1 =>
      cases p2 with
      | none => rfl
      | some q2 =>
        have hq : (q1 == a1 && q2 == a2) = false := by
          by_cases h1 : q1 = a1
          · by_cases h2 : q2 = a2
            · exact absurd ⟨by rw [h1], by rw [h2]⟩ h
            · simp [h2]
          · simp [h1]
        show (if (q1 == a1 && q2 == a2) = true
            then ((200 : Nat), { s1 with admin := some true }) else (401, s1)) = (401, s1)
        rw [hq]
        rfl
  · intro p a1 a2 now s2 h
    rcases h with h | h <;> simp [adminLogin2, h]
  · intro p a1 a2 now s2 h1 h2
    simp [adminLogin2, h1, h2]
  · intro a1 a2 now s2
    rfl

/-- C5 witness: the amended login behaviour at concrete credentials. -/
theorem c5_admin_login_amended_witness :
    ¬((some "x" : Option String) = some "p1" ∧ (some "p2" : Option String) = some "p2") ∧
    (("p2" : String) = "p1" ∨ ("p2" : String) = "p2") ∧
    ("x" : String) ≠ "p1" ∧ ("x" : String) ≠ "p2" ∧
    adminLogin1 (some "p1") (some "p2") "p1" "p2" 7
        { oauthState := none, user := none, admin := none }
      = (200, { oauthState := none, user := none, admin := some true }) ∧
    adminLogin1 (some "x") (some "p2") "p1" "p2" 7
        { oauthState := none, user := none, admin := none }
      = (401, { oauthState := none, user := none, admin := none }) ∧
    adminLogin2 (some "p2") "p1" "p2" 7 { oauth := none, user := none, admin := none }
      = (200, { oauth := none, user := none, admin := some ⟨true, 7⟩ }) ∧
    adminLogin2 (some "x") "p1" "p2" 7 { oauth := none, user := none, admin := none }
      = (401, { oauth := none, user := none, admin := none }) ∧
    adminLogin2 none "p1" "p2" 7 { oauth := none, user := none, admin := none }
      = (400, { oauth := none, user := none, admin := none }) := by
  refine ⟨by simp, Or.inr rfl, by decide, by decide, ?_, ?_, ?_, ?_, ?_⟩
  · exact c5_admin_login_amended.1 "p1" "p2" 7
      { oauthState := none, user := none, admin := none }
  · exact c5_admin_login_amended.2.1 (some "x") (some "p2") "p1" "p2" 7
      { oauthState := none, user := none, admin := none } (by simp)
  · exact c5_admin_login_amended.2.2.1 "p2" "p1" "p2" 7
      { oauth := none, user := none, admin := none } (Or.inr rfl)
  · exact c5_admin_login_amended.2.2.2.1 "x" "p1" "p2" 7
      { oauth := none, user := none, admin := none } (by decide) (by decide)
  · exact c5_admin_login_amended.2.2.2.2 "p1" "p2" 7
      { oauth := none, user := none, admin := none }

/-! ## C6: ticket listing with the category unconfigured -/

/-- C6 counterexample: the first variant answers a ticket List request with
status 200 and an empty tickets array when the category id is not configured
— a successful empty result, not a 4xx error. -/
theorem c6_category_unset_counterexample :
    ticketsRoute1 none (some "g") true [] = { status := 200, tickets := [] } ∧
    ticketsRoute1 none (some "g") true
        [{ id := "c1", name := "t", parent_id := some "cat", type := 0 }]
      = { status := 200, tickets := [] } := by decide

/-- C6 (amended): with the ticket category id unconfigured, the PKCE variant
fails with 400 while the first variant returns a successful (200) empty
list. -/
theorem c6_category_unset_amended (categoryId guildId : Option String)
    (hasBot fetchOk : Bool) (channels : List Channel)
    (hcat : jsFalsy categoryId = true) :
    ticketsRoute1 categoryId guildId fetchOk channels
      = { status := 200, tickets := [] } ∧
    (ticketsRoute2 hasBot guildId categoryId fetchOk channels).status = 400 := by
  constructor
  · unfold ticketsRoute1
    rw [if_pos hcat]
  · unfold ticketsRoute2
    cases hasBot with
    | false => rfl
    | true =>
      have hc : (orEmpty categoryId == "") = true := by
        cases categoryId with
        | none => rfl
        | some s =>
          simp only [jsFalsy] at hcat
          simp [orEmpty, jsOr, hcat]
      by_cases hg : (orEmpty guildId == "") = true
      · simp [hg]
      · simp [hg, hc]

/-- C6 witness: concrete List requests with the category unconfigured. -/
theorem c6_category_unset_amended_witness :
    jsFalsy (none : Option String) = true ∧
    ticketsRoute1 none (some "g") true
        [{ id := "c1", name := "t", parent_id := some "cat", type := 0 }]
      = { status := 200, tickets := [] } ∧
    (ticketsRoute2 true (some "g") none true
        [{ id := "c1", name := "t", parent_id := some "cat", type := 0 }]).status
      = 400 :=
  ⟨by decide,
    c6_category_unset_amended none (some "g") true true
      [{ id := "c1", name := "t", parent_id := some "cat", type := 0 }] (by decide)⟩

/-! ## C7: ticket list filtering -/

/-- C7: the List operation returns exactly the channels whose parent category
equals the configured id and whose type is text (0), mapped to `{id, name}`
in their original order: the result is the filter of the input by that
predicate, mapped; membership is characterised accordingly; the result is a
sublist of the mapped input (order preserved); and the first variant's route
returns the same list. -/
theorem c7_list_filter (channels : List Channel) (cat gid : String)
    (hcat : cat ≠ "") (hgid : gid ≠ "") :
    (listTicketsInCategory channels cat
      = (channels.filter fun c => decide (c.parent_id = some cat ∧ c.type = 0)).map
          fun c => { id := c.id, name := c.name }) ∧
    (∀ t, t ∈ listTicketsInCategory channels cat ↔
      ∃ c ∈ channels, c.parent_id = some cat ∧ c.type = 0 ∧
        t = { id := c.id, name := c.name }) ∧
    List.Sublist (listTicketsInCategory channels cat)
      (channels.map fun c => { id := c.id, name := c.name }) ∧
    (ticketsRoute1 (some cat) (some gid) true channels).status = 200 ∧
    (ticketsRoute1 (some cat) (some gid) true channels).tickets
      = listTicketsInCategory channels cat ∧
    (ticketsRoute2 true (some gid) (some cat) true channels).status = 200 ∧
    (ticketsRoute2 true (some gid) (some cat) true channels).tickets
      = listTicketsInCategory channels cat := by
  have hfil : (channels.filter fun c => c.parent_id == some cat && c.type == 0)
      = channels.filter fun c => decide (c.parent_id = some cat ∧ c.type = 0) := by
    apply List.filter_congr
    intro c _
    by_cases hp : c.parent_id = some cat
    · by_cases ht : c.type = 0
      · simp [hp, ht]
      · simp [hp, ht]
    · simp [hp]
  have hroute1 : ticketsRoute1 (some cat) (some gid) true channels
      = { status := 200, tickets := listTicketsInCategory channels cat } := by
    unfold ticketsRoute1
    rw [if_neg (by simp [jsFalsy, hcat]), if_neg (by simp [jsFalsy, hgid])]
    simp [listTicketsInCategory, orEmpty, jsOr, hcat]
  have hroute2 : ticketsRoute2 true (some gid) (some cat) true channels
      = { status := 200, tickets := listTicketsInCategory channels cat } := by
    unfold ticketsRoute2
    rw [if_neg (by simp), if_neg (by simp [orEmpty, jsOr, hgid]),
      if_neg (by simp [orEmpty, jsOr, hcat]), if_neg (by simp)]
    simp [orEmpty, jsOr, hcat]
  refine ⟨by rw [listTicketsInCategory, hfil], ?_, ?_, ?_, ?_, ?_, ?_⟩
  · intro t
    simp only [listTicketsInCategory, List.mem_map, List.mem_filter,
      Bool.and_eq_true, beq_iff_eq]
    constructor
    · rintro ⟨c, ⟨hc, hp, ht⟩, rfl⟩
      exact ⟨c, hc, hp, ht, rfl⟩
    · rintro ⟨c, hc, hp, ht, rfl⟩
      exact ⟨c, ⟨hc, hp, ht⟩, rfl⟩
  · exact List.Sublist.map _ (List.filter_sublist channels)
  · rw [hroute1]
  · rw [hroute1]
  · rw [hroute2]
  · rw [hroute2]

/-- Fixture channel list containing matching and non-matching entries. -/
def fixtureChannels : List Channel :=
  [{ id := "1", name := "a", parent_id := some "cat", type := 0 },
   { id := "2", name := "b", parent_id := some "other", type := 0 },
   { id := "3", name := "c", parent_id := some "cat", type := 2 },
   { id := "4", name := "d", parent_id := some "cat", type := 0 }]

/-- C7 witness: the filter characterisation at a concrete channel list. -/
theorem c7_list_filter_witness :
    ("cat" : String) ≠ "" ∧ ("g" : String) ≠ "" ∧
    listTicketsInCategory fixtureChannels "cat"
      = (fixtureChannels.filter
            fun c => decide (c.parent_id = some "cat" ∧ c.type = 0)).map
          fun c => { id := c.id, name := c.name } := by
  refine ⟨by decide, by decide, ?_⟩
  exact (c7_list_filter fixtureChannels "cat" "g" (by decide) (by decide)).1

/-! ## C8: ticket message reading -/

/-- The author kind computed by both variants is "bot" exactly when the
upstream author is present and marked as a bot. -/
theorem authorType_bot_iff (a : Option Author) :
    ((if (a.bind Author.bot).getD false then "bot" else "user") = "bot"
      ↔ ∃ au, a = some au ∧ au.bot = some true) := by
  cases a with
  | none => simp
  | some au =>
    cases hb : au.bot with
    | none => simp [hb]
    | some b => cases b <;> simp [hb]

/-- C8: both variants reverse the newest-first upstream message list into
chronological order — entry `i` of the output is the view of input entry
`n - 1 - i` — and map each message to its view, whose author kind is "bot"
exactly when the upstream author is present and marked as a bot, and "user"
in every other case (including a missing author). -/
theorem c8_read_reversal_and_author_kind (msgs : List Msg) (nowIso : String) :
    ((readMessages1 msgs).length = msgs.length ∧
     (readMessages2 nowIso msgs).length = msgs.length) ∧
    (∀ i, i < msgs.length →
       (readMessages1 msgs)[i]? = (msgs[msgs.length - 1 - i]?).map msgView1 ∧
       (readMessages2 nowIso msgs)[i]?
         = (msgs[msgs.length - 1 - i]?).map (msgView2 nowIso)) ∧
    (∀ m, ((msgView1 m).authorType = "bot"
         ↔ ∃ au, m.author = some au ∧ au.bot = some true) ∧
       ((msgView2 nowIso m).authorType = "bot"
         ↔ ∃ au, m.author = some au ∧ au.bot = some true)) ∧
    (∀ m, (¬∃ au, m.author = some au ∧ au.bot = some true) →
       (msgView1 m).authorType = "user" ∧
       (msgView2 nowIso m).authorType = "user") := by
  refine ⟨⟨?_, ?_⟩, ?_, ?_, ?_⟩
  · simp [readMessages1]
  · simp [readMessages2]
  · intro i hi
    constructor
    · show (msgs.reverse.map msgView1)[i]? = _
      rw [List.getElem?_map, List.getElem?_reverse hi]
    · show (msgs.reverse.map (msgView2 nowIso))[i]? = _
      rw [List.getElem?_map, List.getElem?_reverse hi]
  · intro m
    exact ⟨authorType_bot_iff m.author, authorType_bot_iff m.author⟩
  · intro m h
    have h1 := (not_iff_not.mpr (authorType_bot_iff m.author)).mpr h
    constructor
    · show (if (m.author.bind Author.bot).getD false then "bot" else "user") = "user"
      cases hb : (m.author.bind Author.bot).getD false with
      | true => exact absurd (by simp [hb]) h1
      | false => simp [hb]
    · show (if (m.author.bind Author.bot).getD false then "bot" else "user") = "user"
      cases hb : (m.author.bind Author.bot).getD false with
      | true => exact absurd (by simp [hb]) h1
      | false => simp [hb]

/-- Fixture bot author. -/
def botAuthor : Author := { username := "bot1", global_name := none, bot := some true }

/-- Fixture newest message, authored by a bot. -/
def botMsg : Msg :=
  { id := "m2", author := some botAuthor, content := some "newest"
    timestamp := some "t2", edited_timestamp := none }

/-- Fixture upstream message list, newest first. -/
def fixtureMsgs : List Msg :=
  [botMsg,
   { id := "m1", author := none, content := some "oldest"
     timestamp := some "t1", edited_timestamp := none }]

/-- C8 witness: the reversal and author-kind characterisation at a concrete
message list. -/
theorem c8_read_reversal_and_author_kind_witness :
    (0 : Nat) < fixtureMsgs.length ∧
    (readMessages1 fixtureMsgs).length = fixtureMsgs.length ∧
    (readMessages1 fixtureMsgs)[0]?
      = (fixtureMsgs[fixtureMsgs.length - 1 - 0]?).map msgView1 ∧
    ((msgView1 botMsg).authorType = "bot"
      ↔ ∃ au, botMsg.author = some au ∧ au.bot = some true) := by
  refine ⟨by decide, (c8_read_reversal_and_author_kind fixtureMsgs "now").1.1, ?_, ?_⟩
  · exact (((c8_read_reversal_and_author_kind fixtureMsgs "now").2.1) 0 (by decide)).1
  · exact (((c8_read_reversal_and_author_kind fixtureMsgs "now").2.2.1) botMsg).1

/-! ## C9: ticket channel creation is idempotent per user -/

/-- When the category is cached and a matching ticket channel already exists,
`createTicketChannel` returns that channel and leaves the guild unchanged. -/
theorem createTicket_existing (catId : String) (u : BUser) (g : Guild)
    (ex : GChannel) (newId : String)
    (hcat : (g.channels.find? fun ch => ch.id == catId) ≠ none)
    (hex : g.channels.find? (isTicketOf catId u) = some ex) :
    createTicketChannel catId g u newId = Except.ok (ex, g) := by
  cases hfound : g.channels.find? fun ch => ch.id == catId with
  | none => exact absurd hfound hcat
  | some cc =>
    unfold createTicketChannel
    rw [hfound, hex]
    rfl

/-- The channel built on the creation path matches the existing-ticket
predicate for its user. -/
theorem isTicketOf_created (catId : String) (u : BUser) (newId : String) :
    isTicketOf catId u
      { id := newId, type := GuildTextType, parentId := some catId
        topic := some (ticketTopic u), name := safeName u } = true := by
  simp [isTicketOf]

/-- C9: ticket creation is idempotent per user.  If a text channel with topic
`ticket:<user id>` already exists under the category, the bot returns it and
creates nothing; and after any successful creation, a second press returns
the same channel with the guild unchanged, so at most one ticket channel per
user is created through this path. -/
theorem c9_create_ticket_idempotent (catId : String) (u : BUser) :
    (∀ (g : Guild) (ex : GChannel) (newId : String),
       (g.channels.find? fun ch => ch.id == catId) ≠ none →
       g.channels.find? (isTicketOf catId u) = some ex →
       createTicketChannel catId g u newId = Except.ok (ex, g)) ∧
    (∀ (g g' : Guild) (c : GChannel) (newId newId' : String),
       createTicketChannel catId g u newId = Except.ok (c, g') →
       createTicketChannel catId g' u newId' = Except.ok (c, g')) := by
  constructor
  · intro g ex newId hcat hex
    exact createTicket_existing catId u g ex newId hcat hex
  · intro g g' c newId newId' h
    cases hfound : g.channels.find? fun ch => ch.id == catId with
    | none =>
      unfold createTicketChannel at h
      rw [hfound] at h
      simp at h
    | some cc =>
      unfold createTicketChannel at h
      rw [hfound] at h
      cases hex : g.channels.find? (isTicketOf catId u) with
      | some ex =>
        rw [hex] at h
        simp only [Option.isNone_some, Bool.false_eq_true, if_false,
          Except.ok.injEq, Prod.mk.injEq] at h
        obtain ⟨rfl, rfl⟩ := h
        exact createTicket_existing catId u _ _ newId'
          (by rw [hfound]; exact fun hh => Option.noConfusion hh) hex
      | none =>
        rw [hex] at h
        simp only [Option.isNone_some, Bool.false_eq_true, if_false,
          Except.ok.injEq, Prod.mk.injEq] at h
        obtain ⟨rfl, rfl⟩ := h
        apply createTicket_existing
        · show (List.find? _ (g.channels ++ [_])) ≠ none
          rw [List.find?_append, hfound]
          exact fun hh => Option.noConfusion hh
        · show List.find? _ (g.channels ++ [_]) = _
          rw [List.find?_append, hex]
          simp [isTicketOf_created]

/-- Fixture guild: the category channel and one existing ticket channel for
user 12345678. -/
def fixtureGuild : Guild :=
  { channels :=
      [{ id := "cat", type := 4, parentId := none, topic := none, name := "Tickets" },
       { id := "t1", type := 0, parentId := some "cat"
         topic := some "ticket:12345678", name := "ticket-alice-5678" }] }

/-- Fixture user owning the existing ticket. -/
def fixtureUser : BUser := { id := "12345678", username := "alice" }

/-- C9 witness: with the fixture guild, pressing the button returns the
existing ticket channel unchanged, and a creation followed by a second press
returns the same channel and guild. -/
theorem c9_create_ticket_idempotent_witness :
    (fixtureGuild.channels.find? fun ch => ch.id == "cat") ≠ none ∧
    fixtureGuild.channels.find? (isTicketOf "cat" fixtureUser)
      = some { id := "t1", type := 0, parentId := some "cat"
               topic := some "ticket:12345678", name := "ticket-alice-5678" } ∧
    createTicketChannel "cat" fixtureGuild fixtureUser "new1"
      = Except.ok
          ({ id := "t1", type := 0, parentId := some "cat"
             topic := some "ticket:12345678", name := "ticket-alice-5678" },
           fixtureGuild) ∧
    (createTicketChannel "cat" fixtureGuild fixtureUser "new2"
      = Except.ok
          ({ id := "t1", type := 0, parentId := some "cat"
             topic := some "ticket:12345678", name := "ticket-alice-5678" },
           fixtureGuild) →
     createTicketChannel "cat" fixtureGuild fixtureUser "new3"
      = Except.ok
          ({ id := "t1", type := 0, parentId := some "cat"
             topic := some "ticket:12345678", name := "ticket-alice-5678" },
           fixtureGuild)) := by
  have h1 : (fixtureGuild.channels.find? fun ch => ch.id == "cat") ≠ none := by decide
  have h2 : fixtureGuild.channels.find? (isTicketOf "cat" fixtureUser)
      = some { id := "t1", type := 0, parentId := some "cat"
               topic := some "ticket:12345678", name := "ticket-alice-5678" } := by decide
  exact ⟨h1, h2,
    (c9_create_ticket_idempotent "cat" fixtureUser).1 fixtureGuild _ "new1" h1 h2,
    fun hh => (c9_create_ticket_idempotent "cat" fixtureUser).2
      fixtureGuild fixtureGuild _ "new2" "new3" hh⟩

/-! ## C10: ticket channel name shape -/

/-- The sanitizer always outputs a safe character. -/
theorem sanitizeChar_safe (c : Char) : isSafeChar (sanitizeChar c) = true := by
  unfold sanitizeChar
  by_cases h : isSafeChar c = true
  · rw [if_pos h]
    exact h
  · rw [if_neg h]
    decide

/-- Digits are safe characters. -/
theorem digitChar_safe {c : Char} (h1 : '0' ≤ c) (h2 : c ≤ '9') :
    isSafeChar c = true := by
  unfold isSafeChar
  rw [Bool.or_eq_true, Bool.or_eq_true]
  exact Or.inl (Or.inr (by simp [h1, h2]))

/-- C10: for a user whose id is a digit string, the generated ticket channel
name consists only of characters in `[a-z0-9-]`, has at most 25 characters,
and decomposes as a sanitized prefix of at most 20 characters followed by
`-` and the last (at most 4) characters of the user id. -/
theorem c10_safe_name (u : BUser) (hdig : ∀ c ∈ u.id.data, '0' ≤ c ∧ c ≤ '9') :
    (∀ c ∈ (safeName u).data, isSafeChar c = true) ∧
    (safeName u).length ≤ 25 ∧
    (∃ p : List Char, (safeName u).data
        = p ++ '-' :: u.id.data.drop (u.id.data.length - 4) ∧
      p.length ≤ 20 ∧ (u.id.data.drop (u.id.data.length - 4)).length ≤ 4) := by
  have hdata : (safeName u).data = safeNameChars u.username.data u.id.data := rfl
  refine ⟨?_, ?_, ?_⟩
  · intro c hc
    rw [hdata] at hc
    unfold safeNameChars at hc
    rcases List.mem_append.mp hc with h1 | h2
    · have h1' := List.take_subset _ _ h1
      rcases List.mem_map.mp h1' with ⟨x, _, rfl⟩
      exact sanitizeChar_safe x
    · rcases List.mem_cons.mp h2 with rfl | h3
      · decide
      · have hd := hdig c (List.drop_subset _ _ h3)
        exact digitChar_safe hd.1 hd.2
  · show (safeNameChars u.username.data u.id.data).length ≤ 25
    unfold safeNameChars
    rw [List.length_append, List.length_cons, List.length_take, List.length_drop]
    omega
  · refine ⟨(((("ticket-".data ++ u.username.data).map Char.toLower).map
      sanitizeChar).take 20), rfl, ?_, ?_⟩
    · rw [List.length_take]
      exact min_le_left _ _
    · rw [List.length_drop]
      omega

/-- C10 witness: the name shape at a concrete user. -/
theorem c10_safe_name_witness :
    (∀ c ∈ ("12345678" : String).data, '0' ≤ c ∧ c ≤ '9') ∧
    (∀ c ∈ (safeName ⟨"12345678", "Alice Bob"⟩).data, isSafeChar c = true) ∧
    (safeName ⟨"12345678", "Alice Bob"⟩).length ≤ 25 ∧
    (∃ p : List Char, (safeName ⟨"12345678", "Alice Bob"⟩).data
        = p ++ '-' :: ("12345678" : String).data.drop
            (("12345678" : String).data.length - 4) ∧
      p.length ≤ 20 ∧
      (("12345678" : String).data.drop
        (("12345678" : String).data.length - 4)).length ≤ 4) := by
  have hd : ∀ c ∈ ("12345678" : String).data, '0' ≤ c ∧ c ≤ '9' := by decide
  have h := c10_safe_name ⟨"12345678", "Alice Bob"⟩ hd
  exact ⟨hd, h.1, h.2.1, h.2.2⟩

end LiteBots
